import Mathlib

/-!
Verification of the embedding boundary of py-spy (`src/lib.rs`): the
`copy_error` routine, the global pid-to-Sampler registry, and the three
exported FFI functions `pyspy_init`, `pyspy_cleanup`, `pyspy_snapshot`.

Buffers are modelled at the byte level by the string that a call writes
into them; the number of bytes written is the string's UTF-8 byte size.
The `i32` arithmetic of the source (`l as i32`, `-(l as i32)`) is modelled
exactly with two's-complement wrap-around (`wrapI32`).  The general
recursion of `copy_error` is modelled with explicit fuel: a `none` result
for every fuel value means the call never returns.
-/

namespace PySpy

/-- Process identifier (`remoteprocess::Pid`, an `i32` on linux). -/
abbrev Pid := Int

/-- Modelled from the spec: `config::LockingStrategy` (config.rs is not part
of the embedded surface).  A closed set of policies governing whether the
target is paused during a capture: `Blocking` pauses the whole target,
`NonBlocking` never pauses. -/
inductive LockingStrategy where
  | Blocking
  | NonBlocking
  deriving DecidableEq, Repr

/-- Modelled from the spec: `config::Config` (config.rs is not part of the
embedded surface).  Only the locking-strategy field is observable at the
embedding boundary. -/
structure Config where
  blocking : LockingStrategy
  deriving DecidableEq, Repr

/-- Modelled from the spec: the default configuration uses the `Blocking`
strategy ("any other value selects Blocking", the default configuration's
strategy). -/
def Config.default : Config := { blocking := LockingStrategy.Blocking }

/-- Modelled from the spec: `stack_trace::Frame` (stack_trace.rs is not part
of the embedded surface).  One logical stack entry: function name, source
file path, optional shortened display path, line number (0 meaning
unknown), and a flag distinguishing native from interpreted origin. -/
structure Frame where
  name : String
  filename : String
  short_filename : Option String
  line : Int
  is_native : Bool
  deriving DecidableEq, Repr

/-- Modelled from the spec: `stack_trace::StackTrace` (stack_trace.rs is not
part of the embedded surface).  One thread's view at capture time: a thread
identifier, an active flag, and the frames ordered innermost first. -/
structure StackTrace where
  thread_id : Nat
  active : Bool
  frames : List Frame
  deriving DecidableEq, Repr

/-- Modelled from the spec: one sample produced by a `Sampler`: the stack
traces of one capture, one per observed thread. -/
structure Sample where
  traces : List StackTrace
  deriving DecidableEq, Repr

/-- Modelled from the spec: `sampler::Sampler` (sampler.rs is not part of
the embedded surface).  A sampler holds the configuration it was created
with and behaves as a lazy stream of samples; iterating it consumes the
stream.  The stream contents are determined by the external target
process, so they are a parameter of the model. -/
structure Sampler where
  config : Config
  samples : List Sample
  deriving DecidableEq, Repr

/-- Modelled from the spec: `Sampler::new(pid, &config)` attaches to the
target and may fail with an attachment or layout-resolution error; on
success the sampler owns the given configuration.  The success or failure
`outcome` (and the resulting sample stream) is external input. -/
def Sampler.new (pid : Pid) (config : Config)
    (outcome : Except String (List Sample)) : Except String Sampler :=
  outcome.map fun samples => { config := config, samples := samples }

/-- Two's-complement wrap-around to the `i32` range, modelling Rust's
`as i32` casts and wrapping negation. -/
def wrapI32 (n : Int) : Int := (n + 2 ^ 31) % 2 ^ 32 - 2 ^ 31

/-- The fixed fallback message of `copy_error` in lib.rs. -/
def fallbackMsg : String := "buffer is too small"

/-- Shallow embedding of `copy_error` (lib.rs lines 87-96) with explicit
fuel for its general recursion.  The result is the returned status
together with the string whose bytes were written into the error buffer;
`none` for every fuel value means the recursion never terminates. -/
def copy_error : Nat → Int → String → Option (Int × String)
  | 0, _, _ => none
  | fuel + 1, err_len, err_str =>
    if wrapI32 err_str.utf8ByteSize > err_len then
      copy_error fuel err_len fallbackMsg
    else
      some (wrapI32 (-(wrapI32 err_str.utf8ByteSize)), err_str)

/-- The process-wide registry `HASHMAP` (lib.rs lines 80-85), modelled as an
association list from pid to sampler.  `HashMap` semantics: `get` finds
the entry for a key, `insert` replaces any previous entry, `remove`
deletes it. -/
structure Registry where
  entries : List (Pid × Sampler)
  deriving DecidableEq, Repr

/-- `HashMap::get` on the registry. -/
def Registry.get (st : Registry) (pid : Pid) : Option Sampler :=
  (st.entries.find? fun e => e.1 == pid).map Prod.snd

/-- `HashMap::insert` on the registry: the new entry replaces any previous
entry for the same pid. -/
def Registry.insert (st : Registry) (pid : Pid) (s : Sampler) : Registry :=
  { entries := (pid, s) :: st.entries.filter fun e => e.1 != pid }

/-- `HashMap::remove` on the registry. -/
def Registry.remove (st : Registry) (pid : Pid) : Registry :=
  { entries := st.entries.filter fun e => e.1 != pid }

/-- The registry maps each pid to at most one sampler: its keys are
pairwise distinct. -/
def Registry.keysNodup (st : Registry) : Prop :=
  (st.entries.map Prod.fst).Nodup

/-- The configuration built by `pyspy_init` (lib.rs lines 100-103) from the
blocking flag: the default configuration, with the strategy switched to
`NonBlocking` when the flag is 0. -/
def initConfig (blocking : Int) : Config :=
  let config := Config.default
  if blocking == 0 then { config with blocking := LockingStrategy.NonBlocking }
  else config

/-- Shallow embedding of `pyspy_init` (lib.rs lines 98-112).  Returns the
status and the string written into the error buffer (when the call
returns), and the registry after the call.  `outcome` is the external
result of `Sampler::new`; `fuel` feeds `copy_error` on the failure path. -/
def pyspy_init (fuel : Nat) (pid : Pid) (blocking : Int) (err_len : Int)
    (outcome : Except String (List Sample)) (st : Registry) :
    Option (Int × String) × Registry :=
  let config := initConfig blocking
  match Sampler.new pid config outcome with
  | Except.ok sampler => (some (1, ""), st.insert pid sampler)
  | Except.error err =>
    match copy_error fuel err_len err with
    | none => (none, st)
    | some (status, msg) => (some (status, msg), st)

/-- Shallow embedding of `pyspy_cleanup` (lib.rs lines 114-119).  The error
buffer parameters are accepted and ignored; the third component is the
string written into the error buffer (always empty). -/
def pyspy_cleanup (pid : Pid) (err_len : Int) (st : Registry) :
    Int × Registry × String :=
  (1, st.remove pid, "")

/-- The per-frame text built by the snapshot loop (lib.rs lines 142-151):
the short filename when present (else the filename), then `:line - name`
when the line is nonzero, else ` - name`. -/
def frameString (frame : Frame) : String :=
  let filename :=
    match frame.short_filename with
    | some f => f
    | none => frame.filename
  if frame.line != 0 then
    filename ++ ":" ++ toString frame.line ++ " - " ++ frame.name
  else
    filename ++ " - " ++ frame.name

/-- The `string_list` built from one thread's frames by repeated
`insert(0, ...)` (lib.rs lines 141-152): each frame's text is pushed at
the front, so the innermost frame ends up last. -/
def buildStringList (frames : List Frame) : List String :=
  frames.foldl (fun acc frame => frameString frame :: acc) []

/-- The loop over the shuffled traces (lib.rs lines 137-154): threads that
are not active are skipped; the first active thread contributes its
string list and the loop breaks.  No active thread leaves the list
empty. -/
def snapStringList : List StackTrace → List String
  | [] => []
  | thread :: rest =>
    if !thread.active then snapStringList rest
    else buildStringList thread.frames

/-- The folded-stack line rendered from the (shuffled) traces of one
sample: the string list of the first active thread joined with
semicolons (lib.rs line 155). -/
def snapshotLine (traces : List StackTrace) : String :=
  String.intercalate ";" (snapStringList traces)

/-- Shallow embedding of `pyspy_snapshot` (lib.rs lines 121-178).  The
in-place shuffle of the traces is nondeterministic, so the shuffled order
is a parameter `shuffle` (meaningful when it permutes its input).  The
first component is `none` when `copy_error` never returns, else the
status, the string written into the output buffer, and the string written
into the error buffer.  The second component is the registry afterwards:
pulling a sample advances the sampler's stream. -/
def pyspy_snapshot (fuel : Nat)
    (shuffle : List StackTrace → List StackTrace) (pid : Pid)
    (len : Int) (err_len : Int) (st : Registry) :
    Option (Int × String × String) × Registry :=
  match st.get pid with
  | some sampler =>
    match sampler.samples with
    | [] => (some (0, "", ""), st)
    | sample :: rest =>
      let st' := st.insert pid { sampler with samples := rest }
      let joined := snapshotLine (shuffle sample.traces)
      let l := joined.utf8ByteSize
      if len < wrapI32 l then
        match copy_error fuel err_len fallbackMsg with
        | none => (none, st')
        | some (status, msg) => (some (status, "", msg), st')
      else
        (some (wrapI32 l, joined, ""), st')
  | none =>
    match copy_error fuel err_len "could not find spy for this pid" with
    | none => (none, st)
    | some (status, msg) => (some (status, "", msg), st)

/-- The thread the snapshot loop selects from the shuffled traces: the
first one whose active flag is set (lib.rs lines 137-140, 153). -/
def firstActive : List StackTrace → Option StackTrace
  | [] => none
  | t :: ts => if t.active then some t else firstActive ts

/-- Rendering of one frame as the spec describes it: the frame's (short)
filename, a colon, the line number, a space-hyphen-space and the function
name when the line number is nonzero; filename, space-hyphen-space, name
when the line number is 0. -/
def specFrameText (frame : Frame) : String :=
  let filename := frame.short_filename.getD frame.filename
  if frame.line = 0 then
    filename ++ " - " ++ frame.name
  else
    filename ++ ":" ++ toString frame.line ++ " - " ++ frame.name

/-- The folded-stack line as the spec describes it: one thread's frames
rendered innermost last (the innermost-first sequence reversed), joined
with semicolons. -/
def specFoldedLine (t : StackTrace) : String :=
  String.intercalate ";" ((t.frames.map specFrameText).reverse)

/-- Termination of `copy_error` at the given arguments: some fuel makes the
fuel-indexed recursion return a value. -/
def copy_error_terminates (err_len : Int) (err_str : String) : Prop :=
  ∃ fuel status w, copy_error fuel err_len err_str = some (status, w)

/-- One call at the embedding boundary, with all external inputs (the
outcome of `Sampler::new`, the shuffle order, the caller's buffer lengths
and the fuel of `copy_error`) recorded as parameters. -/
inductive FFIOp where
  | init (fuel : Nat) (pid : Pid) (blocking : Int) (err_len : Int)
      (outcome : Except String (List Sample))
  | cleanup (pid : Pid) (err_len : Int)
  | snapshot (fuel : Nat) (shuffle : List StackTrace → List StackTrace)
      (pid : Pid) (len : Int) (err_len : Int)

/-- The registry state after one boundary call. -/
def FFIOp.step (op : FFIOp) (st : Registry) : Registry :=
  match op with
  | FFIOp.init fuel pid blocking err_len outcome =>
    (pyspy_init fuel pid blocking err_len outcome st).2
  | FFIOp.cleanup pid err_len => (pyspy_cleanup pid err_len st).2.1
  | FFIOp.snapshot fuel shuffle pid len err_len =>
    (pyspy_snapshot fuel shuffle pid len err_len st).2

/-- The registry state after a sequence of boundary calls. -/
def runOps (ops : List FFIOp) (st : Registry) : Registry :=
  ops.foldl (fun s op => op.step s) st

/-- The concrete active thread of the spec's end-to-end scenario, frames
innermost first. -/
def exTrace : StackTrace :=
  { thread_id := 1, active := true,
    frames :=
      [ { name := "bar", filename := "a.py", short_filename := none,
          line := 20, is_native := false },
        { name := "foo", filename := "a.py", short_filename := none,
          line := 10, is_native := false } ] }

/-- The concrete sample holding `exTrace`. -/
def exSample : Sample := { traces := [exTrace] }

/-- A sampler whose next sample is `exSample`. -/
def exSampler : Sampler := { config := Config.default, samples := [exSample] }

/-- A registry tracking pid 42 with `exSampler`. -/
def exRegistry : Registry := { entries := [(42, exSampler)] }

/-- Integers already in the i32 range are fixed by the wrap-around. -/
theorem wrapI32_eq_self {n : Int} (h1 : -2147483648 ≤ n) (h2 : n < 2147483648) :
    wrapI32 n = n := by
  have e31 : (2 : Int) ^ 31 = 2147483648 := by norm_num
  have e32 : (2 : Int) ^ 32 = 4294967296 := by norm_num
  unfold wrapI32
  rw [e31, e32]
  omega

/-- The wrap-around of a byte count below 2^31 is the byte count itself. -/
theorem wrapI32_natCast {n : Nat} (h : (n : Int) < 2147483648) :
    wrapI32 (n : Int) = (n : Int) :=
  wrapI32_eq_self (by omega) h

/-- Whenever `copy_error` returns, the written string is the original
message or the fallback message, its wrapped byte size is at most the
declared length, and the status is the wrapped negation of that size. -/
theorem copy_error_spec :
    ∀ (fuel : Nat) (err_len : Int) (msg status : _) (w : String),
      copy_error fuel err_len msg = some (status, w) →
      (w = msg ∨ w = fallbackMsg) ∧ wrapI32 w.utf8ByteSize ≤ err_len ∧
        status = wrapI32 (-(wrapI32 w.utf8ByteSize)) := by
  intro fuel
  induction fuel with
  | zero =>
    intro err_len msg status w h
    simp [copy_error] at h
  | succ n ih =>
    intro err_len msg status w h
    rw [copy_error] at h
    by_cases hc : wrapI32 msg.utf8ByteSize > err_len
    · rw [if_pos hc] at h
      obtain ⟨h1, h2, h3⟩ := ih err_len fallbackMsg status w h
      exact ⟨Or.inr (h1.elim id id), h2, h3⟩
    · rw [if_neg hc] at h
      obtain ⟨hs, hw⟩ := Prod.mk.injEq .. ▸ Option.some.inj h
      subst hw
      exact ⟨Or.inl rfl, not_lt.mp hc, hs.symm⟩

/-- When the declared length cannot hold even the 19-byte fallback message,
`copy_error` on the fallback message never returns. -/
theorem copy_error_fallback_none :
    ∀ (fuel : Nat) (err_len : Int), err_len < 19 →
      copy_error fuel err_len fallbackMsg = none := by
  intro fuel
  induction fuel with
  | zero => intro e h; rfl
  | succ n ih =>
    intro e h
    rw [copy_error]
    rw [if_pos]
    · exact ih e h
    · have : wrapI32 fallbackMsg.utf8ByteSize = 19 := by decide
      omega

/-- The string list built by repeated front insertion is the reversed map
of the per-frame rendering. -/
theorem buildStringList_eq (frames : List Frame) :
    buildStringList frames = (frames.map frameString).reverse := by
  have aux : ∀ (l : List Frame) (acc : List String),
      l.foldl (fun acc frame => frameString frame :: acc) acc =
        (l.map frameString).reverse ++ acc := by
    intro l
    induction l with
    | nil => intro acc; simp
    | cons x xs ih => intro acc; simp [ih]
  simpa using aux frames []

/-- The per-frame rendering of the code coincides with the rendering the
spec describes. -/
theorem frameString_eq_spec (frame : Frame) :
    frameString frame = specFrameText frame := by
  unfold frameString specFrameText
  by_cases h : frame.line = 0 <;>
    cases frame.short_filename <;> simp [h, Option.getD]

/-- The snapshot loop's string list is the selected (first active)
thread's string list, and is empty when no thread is active. -/
theorem snapStringList_of_firstActive :
    ∀ (ts : List StackTrace) (t : StackTrace), firstActive ts = some t →
      snapStringList ts = buildStringList t.frames := by
  intro ts
  induction ts with
  | nil => intro t h; simp [firstActive] at h
  | cons x xs ih =>
    intro t h
    by_cases hx : x.active
    · rw [firstActive, if_pos hx] at h
      obtain rfl := Option.some.inj h
      simp [snapStringList, hx]
    · rw [firstActive, if_neg hx] at h
      simp only [snapStringList, Bool.not_eq_true] at hx ⊢
      rw [hx]
      simpa using ih t h

/-- The folded line the code writes for a selected thread is the folded
line the spec describes. -/
theorem snapshotLine_eq_spec (ts : List StackTrace) (t : StackTrace)
    (h : firstActive ts = some t) :
    snapshotLine ts = specFoldedLine t := by
  unfold snapshotLine specFoldedLine
  rw [snapStringList_of_firstActive ts t h, buildStringList_eq]
  rw [funext frameString_eq_spec]

/-- Looking up a pid right after inserting a sampler for it yields that
sampler. -/
theorem Registry.get_insert_self (st : Registry) (pid : Pid) (s : Sampler) :
    (st.insert pid s).get pid = some s := by
  simp [Registry.get, Registry.insert, List.find?]

/-- A search for a pid among the entries surviving the filter that drops
that pid finds nothing. -/
theorem find?_filter_ne (l : List (Pid × Sampler)) (pid : Pid) :
    (l.filter fun e => e.1 != pid).find? (fun e => e.1 == pid) = none := by
  induction l with
  | nil => rfl
  | cons x xs ih =>
    by_cases hx : x.1 = pid
    · simp [List.filter_cons, hx, ih]
    · simp only [List.filter_cons]
      rw [if_pos (by simp [hx])]
      rw [List.find?_cons_of_neg _ (by simp [hx])]
      exact ih

/-- Looking up a pid right after removing it yields nothing. -/
theorem Registry.get_remove_self (st : Registry) (pid : Pid) :
    (st.remove pid).get pid = none := by
  unfold Registry.get Registry.remove
  rw [find?_filter_ne]
  rfl

/-- Removing a pid twice is the same as removing it once. -/
theorem Registry.remove_remove (st : Registry) (pid : Pid) :
    (st.remove pid).remove pid = st.remove pid := by
  unfold Registry.remove
  rw [List.filter_filter]
  simp

/-- Entries surviving the filter of `insert`/`remove` keep their keys, so
the filtered key list is a sublist of the original key list. -/
theorem keys_filter_sublist (l : List (Pid × Sampler)) (pid : Pid) :
    List.Sublist ((l.filter fun e => e.1 != pid).map Prod.fst)
      (l.map Prod.fst) :=
  (List.filter_sublist l).map Prod.fst

/-- Inserting preserves distinctness of the registry's keys. -/
theorem Registry.keysNodup_insert (st : Registry) (pid : Pid) (s : Sampler)
    (h : st.keysNodup) : (st.insert pid s).keysNodup := by
  unfold Registry.keysNodup at h
  unfold Registry.keysNodup Registry.insert
  simp only [List.map_cons, List.nodup_cons]
  constructor
  · intro hmem
    obtain ⟨e, he, hfst⟩ := List.mem_map.mp hmem
    have h2 := (List.mem_filter.mp he).2
    rw [hfst] at h2
    simp at h2
  · exact h.sublist (keys_filter_sublist st.entries pid)

/-- Removing preserves distinctness of the registry's keys. -/
theorem Registry.keysNodup_remove (st : Registry) (pid : Pid)
    (h : st.keysNodup) : (st.remove pid).keysNodup :=
  List.Nodup.sublist (keys_filter_sublist st.entries pid) h

/-- The registry left behind by a failing `pyspy_init` (whether or not
`copy_error` returns) is exactly the registry before the call. -/
theorem pyspy_init_error_registry (fuel : Nat) (pid : Pid)
    (blocking err_len : Int) (err : String) (st : Registry) :
    (pyspy_init fuel pid blocking err_len (Except.error err) st).2 = st := by
  unfold pyspy_init Sampler.new
  simp only [Except.map]
  cases copy_error fuel err_len err with
  | none => rfl
  | some r => cases r; rfl

/-- The registry left behind by a successful `pyspy_init` is the old
registry with the new sampler inserted for the pid. -/
theorem pyspy_init_ok_registry (fuel : Nat) (pid : Pid)
    (blocking err_len : Int) (samples : List Sample) (st : Registry) :
    (pyspy_init fuel pid blocking err_len (Except.ok samples) st).2 =
      st.insert pid { config := initConfig blocking, samples := samples } :=
  rfl

/-- The registry left behind by `pyspy_snapshot` is the registry before
the call, or that registry with a sampler re-inserted for the queried
pid (its stream advanced by the consumed sample). -/
theorem pyspy_snapshot_registry (fuel : Nat)
    (shuffle : List StackTrace → List StackTrace) (pid : Pid)
    (len err_len : Int) (st : Registry) :
    (pyspy_snapshot fuel shuffle pid len err_len st).2 = st ∨
    ∃ s : Sampler,
      (pyspy_snapshot fuel shuffle pid len err_len st).2 = st.insert pid s := by
  unfold pyspy_snapshot
  cases hget : st.get pid with
  | none =>
    simp only [hget]
    cases copy_error fuel err_len "could not find spy for this pid" with
    | none => exact Or.inl rfl
    | some r => cases r; exact Or.inl rfl
  | some sampler =>
    simp only [hget]
    cases sampler.samples with
    | nil => exact Or.inl rfl
    | cons sample rest =>
      simp only
      split
      · cases copy_error fuel err_len fallbackMsg with
        | none => exact Or.inr ⟨_, rfl⟩
        | some r => cases r; exact Or.inr ⟨_, rfl⟩
      · exact Or.inr ⟨_, rfl⟩

/-- Every boundary call preserves distinctness of the registry's keys. -/
theorem FFIOp.step_keysNodup (op : FFIOp) (st : Registry)
    (h : st.keysNodup) : (op.step st).keysNodup := by
  cases op with
  | init fuel pid blocking err_len outcome =>
    cases outcome with
    | ok samples =>
      rw [FFIOp.step, pyspy_init_ok_registry]
      exact Registry.keysNodup_insert st pid _ h
    | error err =>
      rw [FFIOp.step, pyspy_init_error_registry]
      exact h
  | cleanup pid err_len =>
    rw [FFIOp.step]
    exact Registry.keysNodup_remove st pid h
  | snapshot fuel shuffle pid len err_len =>
    rw [FFIOp.step]
    rcases pyspy_snapshot_registry fuel shuffle pid len err_len st with he | ⟨s, he⟩
    · rw [he]; exact h
    · rw [he]; exact Registry.keysNodup_insert st pid s h

/-- Any sequence of boundary calls starting from a registry with distinct
keys ends in a registry with distinct keys. -/
theorem runOps_keysNodup (ops : List FFIOp) :
    ∀ (st : Registry), st.keysNodup → (runOps ops st).keysNodup := by
  induction ops with
  | nil => intro st h; simpa [runOps] using h
  | cons op rest ih =>
    intro st h
    have hstep := FFIOp.step_keysNodup op st h
    simpa [runOps] using ih (op.step st) hstep

/-- After an insert, the entries carrying the inserted pid are exactly the
one inserted entry. -/
theorem Registry.filter_insert_self (st : Registry) (pid : Pid) (s : Sampler) :
    ((st.insert pid s).entries.filter fun e => e.1 == pid) = [(pid, s)] := by
  unfold Registry.insert
  simp only [List.filter_cons]
  rw [if_pos (by simp)]
  rw [List.filter_filter]
  simp

/-- C1: for every error message whose byte length is i32-representable and
every caller-supplied error buffer whose declared length is smaller than
the message's byte length, whenever `copy_error` - the error-writing
routine used by `pyspy_init` and `pyspy_snapshot` - returns, the bytes it
has written into the error buffer number at most the buffer's declared
length, and its status is negative with magnitude at most that declared
length. -/
theorem copy_error_buffer_safety (fuel : Nat) (err_len : Int) (msg : String)
    (status : Int) (w : String)
    (hsmall : err_len < (msg.utf8ByteSize : Int))
    (hrep : (msg.utf8ByteSize : Int) < 2147483648)
    (hret : copy_error fuel err_len msg = some (status, w)) :
    (w.utf8ByteSize : Int) ≤ err_len ∧ status < 0 ∧ -status ≤ err_len := by
  obtain ⟨hw, hle, hstat⟩ := copy_error_spec fuel err_len msg status w hret
  have hwfb : w = fallbackMsg := by
    rcases hw with rfl | rfl
    · rw [wrapI32_natCast hrep] at hle; omega
    · rfl
  subst hwfb
  have hsz : wrapI32 fallbackMsg.utf8ByteSize = 19 := by decide
  rw [hsz] at hle
  have hst : status = -19 := by rw [hstat]; decide
  refine ⟨?_, by omega, by omega⟩
  have : (fallbackMsg.utf8ByteSize : Int) = 19 := by decide
  omega

theorem copy_error_buffer_safety_witness :
    (("buffer is too small".utf8ByteSize : Int)) ≤ 25 ∧ (-19 : Int) < 0 ∧
      -(-19 : Int) ≤ 25 :=
  copy_error_buffer_safety 2 25 "this message is much too long" (-19)
    "buffer is too small" (by decide) (by decide) (by decide)

/-- C3 counterexample: for the error message "snapshot failed" (15 bytes)
and a declared error-buffer length of 5 - smaller than the byte length of
the fixed fallback message "buffer is too small" - `copy_error` does not
terminate: no amount of fuel makes the recursion return a value, because
the routine keeps recursing into the 19-byte fallback message that itself
never fits. -/
theorem copy_error_divergence_counterexample :
    ¬ copy_error_terminates 5 "snapshot failed" := by
  rintro ⟨fuel, status, w, h⟩
  cases fuel with
  | zero => exact Option.noConfusion h
  | succ n =>
    rw [copy_error, if_pos (by decide)] at h
    rw [copy_error_fallback_none n 5 (by norm_num)] at h
    exact Option.noConfusion h

/-- C3 amended: `copy_error` terminates (fuel 2 suffices) and returns a
nonpositive status whenever the message fits the declared error-buffer
length or that declared length is at least 19, the byte length of the
fixed fallback message; for smaller declared lengths with a message that
does not fit, the recursion never returns (see the counterexample). -/
theorem copy_error_termination (err_len : Int) (msg : String)
    (hrep : (msg.utf8ByteSize : Int) < 2147483648)
    (hok : (msg.utf8ByteSize : Int) ≤ err_len ∨ 19 ≤ err_len) :
    ∃ status w, copy_error 2 err_len msg = some (status, w) ∧ status ≤ 0 := by
  have hwr : wrapI32 msg.utf8ByteSize = (msg.utf8ByteSize : Int) :=
    wrapI32_natCast hrep
  by_cases hfit : wrapI32 msg.utf8ByteSize > err_len
  · have h19 : 19 ≤ err_len := by
      rcases hok with hk | hk
      · omega
      · exact hk
    refine ⟨-19, fallbackMsg, ?_, by omega⟩
    rw [copy_error, if_pos hfit, copy_error]
    rw [if_neg (by rw [show wrapI32 fallbackMsg.utf8ByteSize = 19 from by decide]; omega)]
    rw [show wrapI32 (-(wrapI32 fallbackMsg.utf8ByteSize)) = -19 from by decide]
  · refine ⟨-(msg.utf8ByteSize : Int), msg, ?_, by omega⟩
    rw [copy_error, if_neg hfit, hwr]
    rw [wrapI32_eq_self (by omega) (by omega)]

theorem copy_error_termination_witness :
    ∃ status w, copy_error 2 64 "oops" = some (status, w) ∧ status ≤ 0 :=
  copy_error_termination 64 "oops" (by decide) (Or.inl (by decide))

/-- C2: when `pyspy_snapshot` succeeds for a tracked pid whose sample has an
active thread, the bytes written to the output buffer are the selected
active thread's frames rendered innermost last, joined by semicolons,
each frame formatted as (short) filename, colon, line number,
space-hyphen-space, function name when the line is nonzero and as
filename, space-hyphen-space, name when the line is 0; in particular, on
the spec's concrete example the output is "a.py:10 - foo;a.py:20 - bar"
and the status is its byte length 27. -/
theorem snapshot_folded_line :
    (∀ (fuel : Nat) (shuffle : List StackTrace → List StackTrace) (pid : Pid)
       (len err_len : Int) (st : Registry) (sampler : Sampler)
       (sample : Sample) (rest : List Sample) (t : StackTrace),
       st.get pid = some sampler →
       sampler.samples = sample :: rest →
       firstActive (shuffle sample.traces) = some t →
       wrapI32 (specFoldedLine t).utf8ByteSize ≤ len →
       (pyspy_snapshot fuel shuffle pid len err_len st).1 =
         some (wrapI32 (specFoldedLine t).utf8ByteSize, specFoldedLine t, "")) ∧
    (∀ (fuel : Nat) (shuffle : List StackTrace → List StackTrace),
       (shuffle [exTrace]).Perm [exTrace] →
       (pyspy_snapshot fuel shuffle 42 256 64 exRegistry).1 =
         some (27, "a.py:10 - foo;a.py:20 - bar", "")) := by
  have hgen : ∀ (fuel : Nat) (shuffle : List StackTrace → List StackTrace)
      (pid : Pid) (len err_len : Int) (st : Registry) (sampler : Sampler)
      (sample : Sample) (rest : List Sample) (t : StackTrace),
      st.get pid = some sampler →
      sampler.samples = sample :: rest →
      firstActive (shuffle sample.traces) = some t →
      wrapI32 (specFoldedLine t).utf8ByteSize ≤ len →
      (pyspy_snapshot fuel shuffle pid len err_len st).1 =
        some (wrapI32 (specFoldedLine t).utf8ByteSize, specFoldedLine t, "") := by
    intro fuel shuffle pid len err_len st sampler sample rest t hget hsamples hfa hfit
    have hline : snapshotLine (shuffle sample.traces) = specFoldedLine t :=
      snapshotLine_eq_spec _ t hfa
    unfold pyspy_snapshot
    simp only [hget, hsamples, hline]
    rw [if_neg (not_lt.mpr hfit)]
  refine ⟨hgen, ?_⟩
  intro fuel shuffle hperm
  have hsh : shuffle [exTrace] = [exTrace] := List.perm_singleton.mp hperm
  have hfa : firstActive (shuffle exSample.traces) = some exTrace := by
    rw [show exSample.traces = [exTrace] from rfl, hsh]
    decide
  have h27 : wrapI32 (specFoldedLine exTrace).utf8ByteSize = 27 := by decide
  have hspec : specFoldedLine exTrace = "a.py:10 - foo;a.py:20 - bar" := by
    decide
  have hres := hgen fuel shuffle 42 256 64 exRegistry exSampler exSample []
    exTrace (by decide) rfl hfa (by rw [h27]; norm_num)
  rw [h27, hspec] at hres
  exact hres

theorem snapshot_folded_line_witness :
    (pyspy_snapshot 1 id 42 256 64 exRegistry).1 =
      some (27, "a.py:10 - foo;a.py:20 - bar", "") :=
  snapshot_folded_line.2 1 id (List.Perm.refl _)

/-- C4 counterexample: with an untracked pid and a 20-byte error buffer,
`pyspy_snapshot` reports the pid-not-tracked failure with the message
"buffer is too small" rather than "could not find spy for this pid" as
the claim states: the 31-byte message does not fit the buffer, so
`copy_error` degrades to its fixed fallback message. -/
theorem snapshot_error_message_counterexample :
    (pyspy_snapshot 2 id 42 256 20 { entries := [] }).1 =
      some (-19, "", "buffer is too small") ∧
    "buffer is too small" ≠ "could not find spy for this pid" :=
  ⟨by decide, by decide⟩

/-- C4 amended: a negative status of `pyspy_snapshot` has magnitude equal to
the byte length of the message written into the error buffer, the written
message is "buffer is too small" or "could not find spy for this pid",
and the failure arises in exactly two cases: the pid is untracked, or the
rendered folded-stack line does not fit the declared output length (the
pid-not-tracked message reaching the buffer only when it fits, else the
fallback); in particular, after cleanup of a pid, a snapshot for that pid
with an error buffer of at least 31 bytes returns status -31 with message
"could not find spy for this pid". -/
theorem snapshot_error_cases :
    (∀ (fuel : Nat) (shuffle : List StackTrace → List StackTrace) (pid : Pid)
       (len err_len : Int) (st : Registry) (status : Int) (out errW : String),
       (∀ (sampler : Sampler) (sample : Sample) (rest : List Sample),
          st.get pid = some sampler → sampler.samples = sample :: rest →
          ((snapshotLine (shuffle sample.traces)).utf8ByteSize : Int) <
            2147483648) →
       (pyspy_snapshot fuel shuffle pid len err_len st).1 =
         some (status, out, errW) →
       status < 0 →
       status = -(errW.utf8ByteSize : Int) ∧
       (errW = "buffer is too small" ∨
        errW = "could not find spy for this pid") ∧
       (st.get pid = none ∨
        ∃ (sampler : Sampler) (sample : Sample) (rest : List Sample),
          st.get pid = some sampler ∧ sampler.samples = sample :: rest ∧
          len < ((snapshotLine (shuffle sample.traces)).utf8ByteSize : Int))) ∧
    (∀ (fuel : Nat) (shuffle : List StackTrace → List StackTrace) (pid : Pid)
       (len err_len e : Int) (st : Registry),
       31 ≤ err_len →
       (pyspy_snapshot (fuel + 1) shuffle pid len err_len
          ((pyspy_cleanup pid e st).2.1)).1 =
         some (-31, "", "could not find spy for this pid")) := by
  constructor
  · intro fuel shuffle pid len err_len st status out errW hbound hres hneg
    cases hget : st.get pid with
    | none =>
      unfold pyspy_snapshot at hres
      simp only [hget] at hres
      cases hce : copy_error fuel err_len "could not find spy for this pid" with
      | none => rw [hce] at hres; exact Option.noConfusion hres
      | some r =>
        obtain ⟨s, m⟩ := r
        rw [hce] at hres
        obtain ⟨hs, ho, hm⟩ : s = status ∧ "" = out ∧ m = errW := by
          simpa using hres
        subst hs; subst ho; subst hm
        obtain ⟨hw, hle, hstat⟩ := copy_error_spec fuel err_len _ _ _ hce
        refine ⟨?_, ?_, Or.inl rfl⟩
        · rcases hw with rfl | rfl
          · rw [hstat]; decide
          · rw [hstat]; decide
        · rcases hw with rfl | rfl
          · exact Or.inr rfl
          · exact Or.inl rfl
    | some sampler =>
      unfold pyspy_snapshot at hres
      simp only [hget] at hres
      cases hsamp : sampler.samples with
      | nil =>
        rw [hsamp] at hres
        obtain ⟨hs, ho, hm⟩ : (0 : Int) = status ∧ "" = out ∧ "" = errW := by
          simpa using hres
        omega
      | cons sample rest =>
        rw [hsamp] at hres
        simp only at hres
        have hsz := hbound sampler sample rest hget hsamp
        have hwr : wrapI32 (snapshotLine (shuffle sample.traces)).utf8ByteSize =
            ((snapshotLine (shuffle sample.traces)).utf8ByteSize : Int) :=
          wrapI32_natCast hsz
        by_cases hlen :
            len < wrapI32 (snapshotLine (shuffle sample.traces)).utf8ByteSize
        · rw [if_pos hlen] at hres
          cases hce : copy_error fuel err_len fallbackMsg with
          | none => rw [hce] at hres; exact Option.noConfusion hres
          | some r =>
            obtain ⟨s, m⟩ := r
            rw [hce] at hres
            obtain ⟨hs, ho, hm⟩ : s = status ∧ "" = out ∧ m = errW := by
              simpa using hres
            subst hs; subst ho; subst hm
            obtain ⟨hw, hle, hstat⟩ := copy_error_spec fuel err_len _ _ _ hce
            have hmfb : m = fallbackMsg := hw.elim id id
            subst hmfb
            refine ⟨by rw [hstat]; decide, Or.inl rfl, Or.inr ?_⟩
            exact ⟨sampler, sample, rest, rfl, hsamp, by omega⟩
        · rw [if_neg hlen] at hres
          obtain ⟨hs, ho, hm⟩ :
              wrapI32 (snapshotLine (shuffle sample.traces)).utf8ByteSize =
                status ∧ snapshotLine (shuffle sample.traces) = out ∧
                "" = errW := by
            simpa using hres
          rw [hwr] at hs
          omega
  · intro fuel shuffle pid len err_len e st h31
    have hrm : (pyspy_cleanup pid e st).2.1 = st.remove pid := rfl
    have hget : ((pyspy_cleanup pid e st).2.1).get pid = none := by
      rw [hrm]; exact Registry.get_remove_self st pid
    unfold pyspy_snapshot
    simp only [hget]
    rw [copy_error]
    rw [if_neg (by
      rw [show wrapI32 ("could not find spy for this pid".utf8ByteSize) = 31
        from by decide]
      omega)]
    rw [show wrapI32 (-(wrapI32
      ("could not find spy for this pid".utf8ByteSize))) = -31 from by decide]

theorem snapshot_error_cases_witness :
    (pyspy_snapshot (0 + 1) id 7 256 64
       ((pyspy_cleanup 7 64 { entries := [] }).2.1)).1 =
      some (-31, "", "could not find spy for this pid") :=
  snapshot_error_cases.2 0 id 7 256 64 64 { entries := [] } (by norm_num)

/-- C5: when Sampler construction fails inside `pyspy_init`, the registry is
exactly what it was before the call (no entry created or removed), and
whenever the call returns, the message written into the error buffer is
the construction error (or the fixed fallback when it does not fit) and
the status is the negation of the written message's byte length. -/
theorem init_failure (fuel : Nat) (pid : Pid) (blocking err_len : Int)
    (err : String) (st : Registry) :
    (pyspy_init fuel pid blocking err_len (Except.error err) st).2 = st ∧
    ((err.utf8ByteSize : Int) < 2147483648 →
      ∀ (status : Int) (msg : String),
        (pyspy_init fuel pid blocking err_len (Except.error err) st).1 =
          some (status, msg) →
        (msg = err ∨ msg = fallbackMsg) ∧
          status = -(msg.utf8ByteSize : Int)) := by
  refine ⟨pyspy_init_error_registry fuel pid blocking err_len err st, ?_⟩
  intro hrep status msg hres
  unfold pyspy_init Sampler.new at hres
  simp only [Except.map] at hres
  cases hce : copy_error fuel err_len err with
  | none => rw [hce] at hres; exact Option.noConfusion hres
  | some r =>
    obtain ⟨s, m⟩ := r
    rw [hce] at hres
    obtain ⟨hs, hm⟩ : s = status ∧ m = msg := by simpa using hres
    subst hs; subst hm
    obtain ⟨hw, hle, hstat⟩ := copy_error_spec fuel err_len _ _ _ hce
    refine ⟨hw, ?_⟩
    rcases hw with rfl | rfl
    · rw [hstat, wrapI32_natCast hrep, wrapI32_eq_self (by omega) (by omega)]
    · rw [hstat]; decide

theorem init_failure_witness :
    ("permission denied" = "permission denied" ∨
      "permission denied" = fallbackMsg) ∧
    (-17 : Int) = -(("permission denied".utf8ByteSize : Int)) :=
  (init_failure 1 9 1 64 "permission denied" { entries := [] }).2 (by decide)
    (-17) "permission denied" (by decide)

/-- C6: starting from the empty registry, every sequence of boundary calls
keeps the registry's keys pairwise distinct (each pid maps to at most one
sampler), and a successful `pyspy_init` for an already-tracked pid leaves
exactly the newly constructed sampler mapped to that pid. -/
theorem registry_unique_sampler :
    (∀ ops : List FFIOp, (runOps ops { entries := [] }).keysNodup) ∧
    (∀ (fuel : Nat) (pid : Pid) (blocking err_len : Int)
       (samples : List Sample) (st : Registry) (old : Sampler),
       st.get pid = some old →
       ((pyspy_init fuel pid blocking err_len (Except.ok samples) st).2).get
           pid =
         some { config := initConfig blocking, samples := samples } ∧
       ((pyspy_init fuel pid blocking err_len
           (Except.ok samples) st).2).entries.filter (fun e => e.1 == pid) =
         [(pid, { config := initConfig blocking, samples := samples })]) := by
  constructor
  · intro ops
    exact runOps_keysNodup ops { entries := [] } (by simp [Registry.keysNodup])
  · intro fuel pid blocking err_len samples st old hold
    rw [pyspy_init_ok_registry]
    exact ⟨Registry.get_insert_self st pid _,
      Registry.filter_insert_self st pid _⟩

theorem registry_unique_sampler_witness :
    ((pyspy_init 1 1 0 64 (Except.ok [])
        { entries := [(1, { config := Config.default, samples := [] })] }).2).get
        1 =
      some { config := initConfig 0, samples := [] } ∧
    ((pyspy_init 1 1 0 64 (Except.ok [])
        { entries :=
            [(1, { config := Config.default, samples := [] })] }).2).entries.filter
        (fun e => e.1 == 1) =
      [(1, { config := initConfig 0, samples := [] })] :=
  registry_unique_sampler.2 1 1 0 64 []
    { entries := [(1, { config := Config.default, samples := [] })] }
    { config := Config.default, samples := [] } (by decide)

/-- C7: for every pid, `pyspy_cleanup` returns the positive success status 1
whether or not the pid is tracked, afterwards the pid has no entry, and a
second cleanup leaves the identical registry state: cleanup composed with
cleanup equals a single cleanup. -/
theorem cleanup_idempotent (pid : Pid) (e1 e2 : Int) (st : Registry) :
    (pyspy_cleanup pid e1 st).1 = 1 ∧
    ((pyspy_cleanup pid e1 st).2.1).get pid = none ∧
    (pyspy_cleanup pid e2 (pyspy_cleanup pid e1 st).2.1).2.1 =
      (pyspy_cleanup pid e1 st).2.1 :=
  ⟨rfl, Registry.get_remove_self st pid, Registry.remove_remove st pid⟩

/-- C8: for every pid and blocking flag passed to `pyspy_init`, a flag equal
to 0 selects the NonBlocking locking strategy for the created sampler's
configuration and any nonzero flag selects Blocking, the default
configuration's strategy. -/
theorem init_blocking_flag (fuel : Nat) (pid : Pid) (blocking err_len : Int)
    (samples : List Sample) (st : Registry) :
    ((pyspy_init fuel pid blocking err_len (Except.ok samples) st).2).get
        pid =
      some { config := initConfig blocking, samples := samples } ∧
    (initConfig blocking).blocking =
      (if blocking = 0 then LockingStrategy.NonBlocking
       else LockingStrategy.Blocking) ∧
    Config.default.blocking = LockingStrategy.Blocking := by
  refine ⟨?_, ?_, rfl⟩
  · rw [pyspy_init_ok_registry]
    exact Registry.get_insert_self st pid _
  · by_cases h : blocking = 0 <;> simp [initConfig, h, Config.default]

/-- C9: whenever `pyspy_snapshot` returns (for samples whose rendered line
has an i32-representable byte length), it never writes to both caller
buffers: a non-negative status comes with an untouched error buffer and
exactly `status` bytes written to the output buffer, and a negative
status comes with an untouched output buffer. -/
theorem snapshot_buffer_disjointness (fuel : Nat)
    (shuffle : List StackTrace → List StackTrace) (pid : Pid)
    (len err_len : Int) (st : Registry) (status : Int) (out errW : String)
    (hbound : ∀ (sampler : Sampler) (sample : Sample) (rest : List Sample),
      st.get pid = some sampler → sampler.samples = sample :: rest →
      ((snapshotLine (shuffle sample.traces)).utf8ByteSize : Int) <
        2147483648)
    (hres : (pyspy_snapshot fuel shuffle pid len err_len st).1 =
      some (status, out, errW)) :
    (0 ≤ status → errW = "" ∧ (out.utf8ByteSize : Int) = status) ∧
    (status < 0 → out = "") := by
  cases hget : st.get pid with
  | none =>
    unfold pyspy_snapshot at hres
    simp only [hget] at hres
    cases hce : copy_error fuel err_len "could not find spy for this pid" with
    | none => rw [hce] at hres; exact Option.noConfusion hres
    | some r =>
      obtain ⟨s, m⟩ := r
      rw [hce] at hres
      obtain ⟨hs, ho, hm⟩ : s = status ∧ "" = out ∧ m = errW := by
        simpa using hres
      subst hs; subst ho; subst hm
      obtain ⟨hw, hle, hstat⟩ := copy_error_spec fuel err_len _ _ _ hce
      constructor
      · intro hpos
        exfalso
        rcases hw with rfl | rfl
        · rw [hstat] at hpos; revert hpos; decide
        · rw [hstat] at hpos; revert hpos; decide
      · intro _; rfl
  | some sampler =>
    unfold pyspy_snapshot at hres
    simp only [hget] at hres
    cases hsamp : sampler.samples with
    | nil =>
      rw [hsamp] at hres
      obtain ⟨hs, ho, hm⟩ : (0 : Int) = status ∧ "" = out ∧ "" = errW := by
        simpa using hres
      subst hs; subst ho; subst hm
      exact ⟨fun _ => ⟨rfl, rfl⟩, fun h => absurd h (by omega)⟩
    | cons sample rest =>
      rw [hsamp] at hres
      simp only at hres
      have hsz := hbound sampler sample rest hget hsamp
      have hwr : wrapI32 (snapshotLine (shuffle sample.traces)).utf8ByteSize =
          ((snapshotLine (shuffle sample.traces)).utf8ByteSize : Int) :=
        wrapI32_natCast hsz
      by_cases hlen :
          len < wrapI32 (snapshotLine (shuffle sample.traces)).utf8ByteSize
      · rw [if_pos hlen] at hres
        cases hce : copy_error fuel err_len fallbackMsg with
        | none => rw [hce] at hres; exact Option.noConfusion hres
        | some r =>
          obtain ⟨s, m⟩ := r
          rw [hce] at hres
          obtain ⟨hs, ho, hm⟩ : s = status ∧ "" = out ∧ m = errW := by
            simpa using hres
          subst hs; subst ho; subst hm
          obtain ⟨hw, hle, hstat⟩ := copy_error_spec fuel err_len _ _ _ hce
          have hmfb : m = fallbackMsg := hw.elim id id
          subst hmfb
          constructor
          · intro hpos
            exfalso
            rw [hstat] at hpos
            revert hpos
            decide
          · intro _; rfl
      · rw [if_neg hlen] at hres
        obtain ⟨hs, ho, hm⟩ :
            wrapI32 (snapshotLine (shuffle sample.traces)).utf8ByteSize =
              status ∧ snapshotLine (shuffle sample.traces) = out ∧
              "" = errW := by
          simpa using hres
        subst ho; subst hm
        rw [hwr] at hs
        exact ⟨fun _ => ⟨rfl, hs⟩, fun hneg => by omega⟩

theorem snapshot_buffer_disjointness_witness :
    ((0 : Int) ≤ 27 → "" = "" ∧
      (("a.py:10 - foo;a.py:20 - bar".utf8ByteSize : Int)) = 27) ∧
    ((27 : Int) < 0 → "a.py:10 - foo;a.py:20 - bar" = "") := by
  refine snapshot_buffer_disjointness 1 id 42 256 64 exRegistry 27
    "a.py:10 - foo;a.py:20 - bar" "" ?_ (by decide)
  intro sampler sample rest hget hsamp
  have hs : sampler = exSampler := by
    have : exRegistry.get 42 = some exSampler := by decide
    rw [this] at hget
    exact (Option.some.inj hget).symm
  subst hs
  have hsample : sample = exSample := by
    have : exSampler.samples = exSample :: ([] : List Sample) := rfl
    rw [this] at hsamp
    exact (List.cons.inj hsamp).1.symm
  subst hsample
  decide

/-- C10: `pyspy_cleanup` never touches the caller-supplied error buffer: it
writes nothing into it, and its entire result is independent of the
declared error-buffer length. -/
theorem cleanup_error_buffer_untouched (pid : Pid) (e1 e2 : Int)
    (st : Registry) :
    (pyspy_cleanup pid e1 st).2.2 = "" ∧
    pyspy_cleanup pid e1 st = pyspy_cleanup pid e2 st :=
  ⟨rfl, rfl⟩

end PySpy
